import Mathlib

set_option maxRecDepth 8192

/-!
Verification development for the construction-safety analysis pipeline.

The definitions below are a shallow embedding of the Python sources:
  schemas.py            (data model)
  agents/risk.py        (risk scoring with rule-based fallback)
  agents/rag.py         (regulation retrieval with caching and dedup)
  graph.py              (pipeline node sequencing)

Modelling conventions:
  - Python floats are modelled as rationals; every comparison the code
    performs on them (for example confidence against the 0.50 threshold)
    agrees with float semantics for the literals involved.
  - Fallible calls (the Bedrock scoring model, the Qdrant vector search)
    are modelled with Except / an abstract outcome parameter; a raised
    exception is the error case, and code without a surrounding
    try/except propagates it.
  - Python dicts that the code only extends are modelled as insertion
    ordered association lists, which preserves the dict iteration order
    the code relies on.
-/

/-- Alert severity levels, from schemas.py AlertLevel. -/
inductive AlertLevel where
  | LOW
  | MEDIUM
  | HIGH
  | CRITICAL
deriving DecidableEq, Repr

/-- Object detected in a frame, from schemas.py Detection. -/
structure Detection where
  label : String
  confidence : ℚ
  bbox : List ℚ
deriving DecidableEq, Repr

/-- Safety violation, from schemas.py Violation. -/
structure Violation where
  type : String
  confidence : ℚ
  duration_seconds : ℚ := 0
  severity : AlertLevel
  timestamp_start : ℚ
  timestamp_end : ℚ
deriving DecidableEq, Repr

/-- Overall risk assessment, from schemas.py RiskAssessment.  The last
field is spelled equipment_contex in schemas.py (sic, no final t); the
callers in risk.py pass a keyword named equipment_context instead, which
matches no declared field, and pydantic with its default configuration
silently ignores unknown keyword arguments, so the field always keeps its
default empty list (see mkRiskAssessment and rule_based_fallback). -/
structure RiskAssessment where
  risk_score : Int
  alert_level : AlertLevel
  violations : List Violation := []
  equipment_contex : List String := []
deriving DecidableEq, Repr

/-- OSHA regulation reference, from schemas.py Regulation. -/
structure Regulation where
  citation : String
  text : String
  source : String
deriving DecidableEq, Repr

/-! ## agents/risk.py -/

/-- Violation label set; defined identically in agents/risk.py and
agents/rag.py. -/
def VIOLATION_LABELS : List String := ["NO-Hardhat", "NO-Mask", "NO-Safety Vest"]

/-- Machinery label set from agents/risk.py. -/
def MACHINERY_LABELS : List String :=
  ["Excavator", "Wheel Loader", "Machinery", "Dump Truck", "machinery"]

/-- One entry of the violations array in the scoring-model JSON reply.
A field that is absent (or not of the accessed type) is modelled as none:
v["type"] and v["severity"] raise KeyError when absent, while
v.get("confidence", 0.0) defaults. -/
structure RawViolation where
  type : Option String
  severity : Option String
  confidence : Option ℚ
deriving DecidableEq, Repr

/-- The parsed JSON object returned by BedrockModel.invoke_json, reduced
to the fields _parse_response reads.  data["risk_score"] and
data["alert_level"] raise KeyError when absent; data.get("violations", [])
defaults to the empty list. -/
structure ModelData where
  risk_score : Option Int
  alert_level : Option String
  violations : Option (List RawViolation)
deriving DecidableEq, Repr

/-- Behaviour of the guarded scoring-model call in RiskAssessor.assess:
either invoke_json raises (network failure, non-JSON reply), or it
returns a parsed JSON object. -/
inductive ModelOutcome where
  | failure
  | success (data : ModelData)
deriving DecidableEq, Repr

/-- AlertLevel(value) coercion of the str-valued enum: any string other
than the four member values raises ValueError. -/
def AlertLevel.ofString : String → Option AlertLevel
  | "LOW" => some .LOW
  | "MEDIUM" => some .MEDIUM
  | "HIGH" => some .HIGH
  | "CRITICAL" => some .CRITICAL
  | _ => none

/-- Builds one Violation from a model-reply entry, as in _parse_response:
Violation(type=v["type"], confidence=v.get("confidence", 0.0),
severity=AlertLevel(v["severity"]), timestamp_start=0.0,
timestamp_end=0.0).  A missing key or unknown severity string raises. -/
def parseViolation (v : RawViolation) : Except Unit Violation :=
  match v.type, v.severity with
  | some t, some s =>
    match AlertLevel.ofString s with
    | some sev =>
      .ok { type := t, confidence := v.confidence.getD 0, severity := sev,
            timestamp_start := 0, timestamp_end := 0 }
    | none => .error ()
  | _, _ => .error ()

/-- The pydantic constructor call
RiskAssessment(risk_score=..., alert_level=..., violations=...,
equipment_context=...) as written in risk.py.  Validation enforces
risk_score between 0 and 100 (schemas.py: ge=0, le=100) and raises
ValidationError otherwise.  The equipment_context keyword matches no
declared field (the schema declares equipment_contex), so pydantic drops
it and the stored field is the default empty list. -/
def mkRiskAssessment (risk_score : Int) (alert_level : AlertLevel)
    (violations : List Violation) (equipment_context : List String) :
    Except Unit RiskAssessment :=
  if 0 ≤ risk_score ∧ risk_score ≤ 100 then
    .ok { risk_score := risk_score, alert_level := alert_level,
          violations := violations, equipment_contex := [] }
  else .error ()

/-- RiskAssessor._parse_response.  Each dict access and each enum
coercion may raise; any such exception escapes to the caller.  The
violations_found argument is accepted but unused, exactly as in the
source. -/
def parse_response (data : ModelData) (violations_found equipment_present : List Detection) :
    Except Unit RiskAssessment :=
  match (data.violations.getD []).mapM parseViolation with
  | .error e => .error e
  | .ok violations =>
    match data.risk_score with
    | none => .error ()
    | some score =>
      match data.alert_level with
      | none => .error ()
      | some levelStr =>
        match AlertLevel.ofString levelStr with
        | none => .error ()
        | some level =>
          mkRiskAssessment score level violations
            (equipment_present.map (fun e => e.label))

/-- RiskAssessor._rule_based_fallback.  The score always passes the
pydantic range validation, so the construction never raises here; the
equipment_context keyword is dropped as explained at mkRiskAssessment. -/
def rule_based_fallback (violations_found equipment_present : List Detection) :
    RiskAssessment :=
  let score : Int := min ((violations_found.length : Int) * 25) 100
  let level : AlertLevel :=
    if score ≥ 75 then .CRITICAL
    else if score ≥ 50 then .HIGH
    else if score ≥ 25 then .MEDIUM
    else .LOW
  { risk_score := score, alert_level := level, violations := [],
    equipment_contex := [] }

/-- The detections whose label is in VIOLATION_LABELS (local
violations_found in RiskAssessor.assess). -/
def violationsFound (detections : List Detection) : List Detection :=
  detections.filter (fun d => VIOLATION_LABELS.contains d.label)

/-- The detections whose label is in MACHINERY_LABELS (local
equipment_present in RiskAssessor.assess). -/
def equipmentPresent (detections : List Detection) : List Detection :=
  detections.filter (fun d => MACHINERY_LABELS.contains d.label)

/-- Result of RiskAssessor.assess, instrumented with the number of
scoring-model invocations made. -/
structure AssessOut where
  result : RiskAssessment
  modelCalls : Nat
deriving DecidableEq, Repr

/-- RiskAssessor.assess.  The regulations argument (and the people count
the source also computes) only feed the prompt text sent to the model,
whose behaviour is abstracted by the outcome parameter.  Any exception
inside the try block - the model call itself or _parse_response -
falls back to _rule_based_fallback. -/
def assess (detections : List Detection) (regulations : List Regulation)
    (outcome : ModelOutcome) : AssessOut :=
  if detections.isEmpty then
    { result := { risk_score := 0, alert_level := .LOW }, modelCalls := 0 }
  else
    match outcome with
    | .failure =>
      { result := rule_based_fallback (violationsFound detections) (equipmentPresent detections),
        modelCalls := 1 }
    | .success data =>
      match parse_response data (violationsFound detections) (equipmentPresent detections) with
      | .ok r => { result := r, modelCalls := 1 }
      | .error _ =>
        { result := rule_based_fallback (violationsFound detections) (equipmentPresent detections),
          modelCalls := 1 }

/-- The condition under which RiskAssessor.assess takes the rule-based
fallback path for a nonempty detection list: the model call raised, or
its reply failed parsing or validation. -/
def modelPathFails (detections : List Detection) (outcome : ModelOutcome) : Prop :=
  match outcome with
  | .failure => True
  | .success data =>
    parse_response data (violationsFound detections) (equipmentPresent detections) = .error ()

/-! ## agents/rag.py -/

/-- Safety query map from agents/rag.py. -/
def SAFETY_QUERY_MAP : List (String × String) :=
  [("NO-Hardhat",       "hard hat head protection requirement construction site"),
   ("NO-Mask",          "respiratory protection mask requirement airborne contaminants"),
   ("NO-Safety Vest",   "high visibility safety vest apparel requirement flagger"),
   ("Hardhat",          "hard hat head protection compliance standard"),
   ("Mask",             "respiratory protection mask compliance"),
   ("Safety Vest",      "high visibility safety apparel compliance"),
   ("Gloves",           "hand protection gloves requirement construction"),
   ("Person",           "worker safety requirement construction site general"),
   ("Excavator",        "excavator heavy equipment operator safety clearance zone"),
   ("Wheel Loader",     "wheel loader heavy machinery operator safety requirement"),
   ("Machinery",        "machinery equipment safety requirement construction"),
   ("Dump Truck",       "dump truck vehicle safety construction site"),
   ("Truck",            "truck vehicle safety construction site"),
   ("Truck and Trailer","truck trailer vehicle safety construction site"),
   ("Trailer",          "trailer vehicle safety requirement"),
   ("Semi",             "semi truck heavy vehicle safety requirement"),
   ("SUV",              "vehicle traffic control construction zone safety"),
   ("Van",              "van vehicle traffic control construction zone"),
   ("Mini-Van",         "vehicle traffic control construction zone safety"),
   ("Sedan",            "vehicle traffic control construction zone safety"),
   ("Bus",              "bus vehicle traffic control construction zone"),
   ("Vehicle",          "vehicle traffic control construction zone safety"),
   ("Safety Cone",      "traffic cone safety barrier construction zone requirement"),
   ("Ladder",           "ladder safety requirement portable climbing construction"),
   ("Fire Hydrant",     "fire hydrant clearance requirement obstruction")]

/-- Priority map from agents/rag.py, in dict insertion order. -/
def PRIORITY_MAP : List (String × List String) :=
  [("HIGH",   ["NO-Hardhat", "NO-Mask", "NO-Safety Vest"]),
   ("MEDIUM", ["Excavator", "Wheel Loader", "Machinery", "Dump Truck", "Ladder"]),
   ("LOW",    ["Person", "Safety Cone", "SUV", "Van", "Sedan", "Bus",
               "Truck", "Semi", "Trailer", "Truck and Trailer", "Mini-Van",
               "Vehicle", "Fire Hydrant", "Hardhat", "Mask", "Safety Vest", "Gloves"])]

/-- Per-tier retrieval result budget from agents/rag.py. -/
def RETRIEVAL_LIMITS : List (String × Nat) := [("HIGH", 5), ("MEDIUM", 3), ("LOW", 1)]

/-- Minimum detection confidence for retrieval, from agents/rag.py. -/
def CONFIDENCE_THRESHOLD : ℚ := 0.50

/-- Minimum fused search score, from agents/rag.py; it is forwarded to
the search backend, which is abstracted below. -/
def SCORE_THRESHOLD : ℚ := 0.60

/-- get_priority from agents/rag.py: iterate PRIORITY_MAP in insertion
order, return the first level whose label set contains the label,
defaulting to LOW. -/
def get_priority (label : String) : String :=
  match PRIORITY_MAP.find? (fun p => p.2.contains label) with
  | some p => p.1
  | none => "LOW"

/-- build_query from agents/rag.py. -/
def build_query (label : String) : String :=
  match SAFETY_QUERY_MAP.lookup label with
  | some q => q
  | none => label ++ " safety requirement construction site"

/-- Payload of a point returned by the vector search; point.payload may
be None, and the text and source keys may each be absent. -/
structure Payload where
  text : Option String
  source : Option String
deriving DecidableEq, Repr

/-- A search hit as consumed by retrieve_regulations. -/
structure Point where
  payload : Option Payload
deriving DecidableEq, Repr

/-- payload = point.payload or {}; text = payload.get("text", ""). -/
def Point.textOf (p : Point) : String :=
  match p.payload with
  | some pl => pl.text.getD ""
  | none => ""

/-- payload = point.payload or {}; payload.get("source", "Unknown"). -/
def Point.sourceOf (p : Point) : String :=
  match p.payload with
  | some pl => pl.source.getD "Unknown"
  | none => "Unknown"

/-- The dedup key hash(text[:200]) of agents/rag.py.  Python guarantees
equal strings hash equal, so keying by the 200-character prefix itself
models exactly the identification of passages with equal prefixes that
the code performs. -/
def textKey (text : String) : String := text.take 200

attribute [irreducible] textKey

/-- Abstraction of RAGRetriever._search (embedding plus hybrid Qdrant
query): given the query text and limit it either returns the fused hit
list or raises (for instance when the vector-index service is
unreachable). -/
abbrev SearchFn := String → Nat → Except Unit (List Point)

/-- Loop state of RAGRetriever.retrieve_regulations, instrumented with
the executed backend queries (searchCalls) and the hits processed in
order of arrival (arrived). -/
structure RetState where
  regulations_dict : List (String × Regulation)
  query_cache : List (String × List Point)
  searchCalls : List String
  arrived : List Point
deriving DecidableEq, Repr

/-- State at loop entry. -/
def initState : RetState :=
  { regulations_dict := [], query_cache := [], searchCalls := [], arrived := [] }

/-- The Regulation built from one search hit:
Regulation(citation=payload.get("source", "Unknown"), text=text,
source="CAL_OSHA"). -/
def regulationOfPoint (p : Point) : Regulation :=
  { citation := p.sourceOf, text := p.textOf, source := "CAL_OSHA" }

/-- The body of the inner point loop: insert the regulation under its
dedup key only if the key is not yet present. -/
def insertPoint (dict : List (String × Regulation)) (p : Point) :
    List (String × Regulation) :=
  if (dict.lookup (textKey p.textOf)).isSome then dict
  else dict ++ [(textKey p.textOf, regulationOfPoint p)]

/-- Fold the inner point loop over one result set and record the points
as arrived. -/
def absorbPoints (st : RetState) (points : List Point) : RetState :=
  { st with regulations_dict := points.foldl insertPoint st.regulations_dict,
            arrived := st.arrived ++ points }

/-- The non-skipped branch of the detection loop: build the query, take
the tier budget with RETRIEVAL_LIMITS.get(priority, 1), consult the
per-run query cache, search on a miss, then absorb the points. -/
def queryPath (search : SearchFn) (st : RetState) (d : Detection) :
    Except Unit RetState :=
  match st.query_cache.lookup (build_query d.label) with
  | some points => .ok (absorbPoints st points)
  | none =>
    match search (build_query d.label) ((RETRIEVAL_LIMITS.lookup (get_priority d.label)).getD 1) with
    | .error e => .error e
    | .ok points =>
      .ok (absorbPoints
        { st with query_cache := st.query_cache ++ [(build_query d.label, points)],
                  searchCalls := st.searchCalls ++ [build_query d.label] } points)

/-- One iteration of the detection loop of retrieve_regulations: skip
low-confidence detections, skip LOW-priority non-violations, else run
the query path. -/
def processDetection (search : SearchFn) (st : RetState) (d : Detection) :
    Except Unit RetState :=
  if d.confidence < CONFIDENCE_THRESHOLD then .ok st
  else if get_priority d.label = "LOW" ∧ d.label ∉ VIOLATION_LABELS then .ok st
  else queryPath search st d

/-- The detection loop; an exception raised by the search backend
propagates out of the loop, since the source has no try/except. -/
def runDetections (search : SearchFn) : RetState → List Detection → Except Unit RetState
  | st, [] => .ok st
  | st, d :: ds =>
    match processDetection search st d with
    | .error e => .error e
    | .ok st₁ => runDetections search st₁ ds

/-- The final loop state of retrieve_regulations on a given context. -/
def retrieveState (search : SearchFn) (context : List Detection) :
    Except Unit RetState :=
  runDetections search initState context

/-- RAGRetriever.retrieve_regulations: empty context short-circuits to
the empty list; otherwise the loop runs and the values of the dedup dict
are returned in insertion order. -/
def retrieve_regulations (search : SearchFn) (context : List Detection) :
    Except Unit (List Regulation) :=
  if context.isEmpty then .ok []
  else
    match retrieveState search context with
    | .error e => .error e
    | .ok st => .ok (st.regulations_dict.map Prod.snd)

/-- The guard under which a detection enters the query path, written
with the same two tests in the same order as processDetection. -/
def qualifies (d : Detection) : Bool :=
  if d.confidence < CONFIDENCE_THRESHOLD then false
  else if get_priority d.label = "LOW" ∧ d.label ∉ VIOLATION_LABELS then false
  else true

/-- The query texts of the qualifying detections, in loop order. -/
def qualifyingQueries (context : List Detection) : List String :=
  (context.filter qualifies).map (fun d => build_query d.label)

/-- First-occurrence deduplication of a query sequence relative to a set
of already-seen queries; describes which queries reach the backend. -/
def dedupQueries : List String → List String → List String
  | _, [] => []
  | seen, q :: qs =>
    if q ∈ seen then dedupQueries seen qs
    else q :: dedupQueries (q :: seen) qs

/-! ## graph.py -/

/-- The retrieve_regulations and assess_risk nodes of graph.py run in
sequence; neither the nodes nor the langgraph orchestrator catch
exceptions, so an exception raised inside retrieval aborts
workflow.invoke before risk assessment runs. -/
def graphRetrieveThenAssess (search : SearchFn) (outcome : ModelOutcome)
    (detections : List Detection) : Except Unit RiskAssessment :=
  match retrieve_regulations search detections with
  | .error e => .error e
  | .ok regs => .ok (assess detections regs outcome).result

/-! ## Concrete inputs used in the claims -/

/-- A detection with the given label and confidence and an irrelevant
empty bounding box. -/
def mkDetection (label : String) (confidence : ℚ) : Detection :=
  { label := label, confidence := confidence, bbox := [] }

/-- The mixed detection list from the end-to-end scenario (also the test
list in the rag.py main block). -/
def testDetections : List Detection :=
  [{ label := "NO-Hardhat",     confidence := 0.91, bbox := [100, 50, 60, 80] },
   { label := "NO-Safety Vest", confidence := 0.85, bbox := [200, 100, 70, 90] },
   { label := "Excavator",      confidence := 0.78, bbox := [300, 200, 200, 150] },
   { label := "Sedan",          confidence := 0.72, bbox := [400, 300, 100, 60] },
   { label := "Ladder",         confidence := 0.65, bbox := [150, 120, 40, 100] }]

/-- A search backend that always raises (vector-index service
unreachable). -/
def failingSearch : SearchFn := fun _ _ => .error ()

/-- A search backend that always answers with no hits. -/
def emptySearch : SearchFn := fun _ _ => .ok []

/-- A model reply that parses and validates successfully. -/
def okModelData : ModelData :=
  { risk_score := some 70, alert_level := some "HIGH", violations := some [] }

/-! ## Helper lemmas -/

/-- A successful pydantic construction implies the validated score
bounds. -/
theorem mkRiskAssessment_ok_bounds {s : Int} {l : AlertLevel} {v : List Violation}
    {e : List String} {r : RiskAssessment} (h : mkRiskAssessment s l v e = .ok r) :
    0 ≤ r.risk_score ∧ r.risk_score ≤ 100 := by
  unfold mkRiskAssessment at h
  split at h
  · rename_i hb
    cases h
    exact hb
  · exact Except.noConfusion h

/-- A successfully parsed model reply carries a validated score. -/
theorem parse_response_ok_bounds {data : ModelData} {vf ep : List Detection}
    {r : RiskAssessment} (h : parse_response data vf ep = .ok r) :
    0 ≤ r.risk_score ∧ r.risk_score ≤ 100 := by
  unfold parse_response at h
  split at h
  · exact Except.noConfusion h
  · split at h
    · exact Except.noConfusion h
    · split at h
      · exact Except.noConfusion h
      · split at h
        · exact Except.noConfusion h
        · exact mkRiskAssessment_ok_bounds h

/-- The rule-based fallback score is within the validated range. -/
theorem rule_based_fallback_bounds (vf ep : List Detection) :
    0 ≤ (rule_based_fallback vf ep).risk_score ∧
    (rule_based_fallback vf ep).risk_score ≤ 100 := by
  unfold rule_based_fallback
  refine ⟨le_min ?_ (by norm_num), min_le_right _ _⟩
  have : (0 : Int) ≤ (vf.length : Int) := Int.natCast_nonneg _
  nlinarith

/-! ## Claim theorems -/

/-- C9: for the empty detection list, assess returns the deterministic
zero assessment - risk score 0 and alert level LOW - without invoking
the scoring model at all. -/
theorem assess_empty_zero (regulations : List Regulation) (outcome : ModelOutcome) :
    (assess [] regulations outcome).result.risk_score = 0 ∧
    (assess [] regulations outcome).result.alert_level = AlertLevel.LOW ∧
    (assess [] regulations outcome).modelCalls = 0 :=
  ⟨rfl, rfl, rfl⟩

/-- C5: on every input - any detection list, any regulation list, any
scoring-model behaviour including malformed or out-of-range output -
assess returns a risk score in the interval from 0 to 100: an invalid
model score fails validation inside the guarded call and triggers the
fallback, whose score is capped by the min with 100. -/
theorem assess_score_in_range (detections : List Detection)
    (regulations : List Regulation) (outcome : ModelOutcome) :
    0 ≤ (assess detections regulations outcome).result.risk_score ∧
    (assess detections regulations outcome).result.risk_score ≤ 100 := by
  unfold assess
  split
  · exact ⟨le_refl 0, by norm_num⟩
  · cases outcome with
    | failure =>
      exact rule_based_fallback_bounds (violationsFound detections) (equipmentPresent detections)
    | success data =>
      cases hp : parse_response data (violationsFound detections) (equipmentPresent detections) with
      | ok r =>
        simp only [hp]
        exact parse_response_ok_bounds hp
      | error e =>
        simp only [hp]
        exact rule_based_fallback_bounds (violationsFound detections) (equipmentPresent detections)

/-- C1: whenever the scoring-model call raises or its reply fails
parsing or validation, assess returns the deterministic fallback: score
min(25 N, 100) for N violation-labelled detections, the fixed alert
thresholds (75 CRITICAL, 50 HIGH, 25 MEDIUM, else LOW), and an empty
violation list. -/
theorem assess_fallback_deterministic (detections : List Detection)
    (regulations : List Regulation) (outcome : ModelOutcome)
    (h : modelPathFails detections outcome) :
    (assess detections regulations outcome).result.risk_score =
      min (((violationsFound detections).length : Int) * 25) 100 ∧
    (assess detections regulations outcome).result.alert_level =
      (if min (((violationsFound detections).length : Int) * 25) 100 ≥ 75 then AlertLevel.CRITICAL
       else if min (((violationsFound detections).length : Int) * 25) 100 ≥ 50 then AlertLevel.HIGH
       else if min (((violationsFound detections).length : Int) * 25) 100 ≥ 25 then AlertLevel.MEDIUM
       else AlertLevel.LOW) ∧
    (assess detections regulations outcome).result.violations = [] := by
  unfold assess
  split
  · rename_i hempty
    have hnil : detections = [] := List.isEmpty_iff.mp hempty
    subst hnil
    refine ⟨by norm_num [violationsFound], ?_, rfl⟩
    norm_num [violationsFound]
  · cases outcome with
    | failure => exact ⟨rfl, rfl, rfl⟩
    | success data =>
      have hp : parse_response data (violationsFound detections) (equipmentPresent detections) =
          .error () := h
      simp only [hp]
      exact ⟨rfl, rfl, rfl⟩

/-- Witness for C1 at a concrete input: one NO-Hardhat detection and a
raising model call. -/
theorem assess_fallback_deterministic_witness :
    modelPathFails [mkDetection "NO-Hardhat" 0.9] ModelOutcome.failure ∧
    (assess [mkDetection "NO-Hardhat" 0.9] [] ModelOutcome.failure).result.risk_score =
      min (((violationsFound [mkDetection "NO-Hardhat" 0.9]).length : Int) * 25) 100 :=
  ⟨trivial,
   (assess_fallback_deterministic [mkDetection "NO-Hardhat" 0.9] [] ModelOutcome.failure trivial).1⟩

/-- C3 counterexample: on the scenario detection list with the scoring
model unavailable, the fallback score is 50 but the alert level is HIGH
(the 50-or-above threshold), not MEDIUM as claimed. -/
theorem scenario_fallback_not_medium :
    ¬ ((assess testDetections [] ModelOutcome.failure).result.risk_score = 50 ∧
       (assess testDetections [] ModelOutcome.failure).result.alert_level = AlertLevel.MEDIUM) := by
  intro h
  have hlevel : (assess testDetections [] ModelOutcome.failure).result.alert_level =
      AlertLevel.HIGH := rfl
  rw [hlevel] at h
  exact AlertLevel.noConfusion h.2

/-- C3 amended: on the scenario detection list (exactly two
violation-type labels) with the scoring model unavailable, assess
returns risk score min(25 times 2, 100) = 50 and alert level HIGH. -/
theorem scenario_fallback_fifty_high (regulations : List Regulation) :
    (violationsFound testDetections).length = 2 ∧
    (assess testDetections regulations ModelOutcome.failure).result.risk_score = 50 ∧
    (assess testDetections regulations ModelOutcome.failure).result.alert_level = AlertLevel.HIGH :=
  ⟨rfl, rfl, rfl⟩

/-- Machinery-labelled detections used for the equipment-context claim. -/
def c6Detections : List Detection :=
  [mkDetection "Excavator" 0.9, mkDetection "NO-Hardhat" 0.9]

/-- C6: the machinery labels the code computes are nonempty for this
input, yet on both the fallback path and the model path the returned
assessment stores the default empty list, because the keyword
equipment_context passed by risk.py does not match the schema field
equipment_contex and pydantic discards it. -/
theorem equipment_labels_dropped :
    (equipmentPresent c6Detections).map (fun d => d.label) = ["Excavator"] ∧
    (assess c6Detections [] ModelOutcome.failure).result.equipment_contex = [] ∧
    (assess c6Detections [] (ModelOutcome.success okModelData)).result.equipment_contex = [] :=
  ⟨rfl, rfl, rfl⟩

/-- C2: when every vector-index call raises, the retrieval stage raises
out of retrieve_regulations (there is no surrounding try/except), and
the retrieve-then-assess node sequence of the graph aborts with that
exception instead of completing with a RiskAssessment. -/
theorem unreachable_index_aborts_run :
    retrieve_regulations failingSearch [mkDetection "NO-Hardhat" 0.9] = .error () ∧
    graphRetrieveThenAssess failingSearch ModelOutcome.failure [mkDetection "NO-Hardhat" 0.9] =
      .error () := by
  have h1 : ¬ ((0.9 : ℚ) < CONFIDENCE_THRESHOLD) := by norm_num [CONFIDENCE_THRESHOLD]
  have h2 : ¬ (get_priority "NO-Hardhat" = "LOW" ∧ "NO-Hardhat" ∉ VIOLATION_LABELS) := by decide
  have hstate : retrieveState failingSearch [mkDetection "NO-Hardhat" 0.9] = .error () := by
    unfold retrieveState runDetections processDetection
    simp only [mkDetection]
    rw [if_neg h1, if_neg h2]
    rfl
  have hret : retrieve_regulations failingSearch [mkDetection "NO-Hardhat" 0.9] = .error () := by
    unfold retrieve_regulations
    rw [if_neg (by simp)]
    rw [hstate]
  refine ⟨hret, ?_⟩
  unfold graphRetrieveThenAssess
  rw [hret]

/-- C10: get_priority is total and lands in the three tiers, any label
outside every tier set maps to LOW, build_query falls back to the
generic template for labels outside the query map, and the unknown label
Crane classifies LOW with a nonempty generic query. -/
theorem priority_total_and_generic :
    (∀ label : String, get_priority label = "HIGH" ∨ get_priority label = "MEDIUM" ∨
        get_priority label = "LOW") ∧
    (∀ label : String, (∀ pr ∈ PRIORITY_MAP, label ∉ pr.2) → get_priority label = "LOW") ∧
    (∀ label : String, SAFETY_QUERY_MAP.lookup label = none →
        build_query label = label ++ " safety requirement construction site") ∧
    get_priority "Crane" = "LOW" ∧
    build_query "Crane" = "Crane safety requirement construction site" ∧
    build_query "Crane" ≠ "" := by
  refine ⟨?_, ?_, ?_, by decide, by decide, by decide⟩
  · intro label
    unfold get_priority
    cases hf : PRIORITY_MAP.find? (fun p => p.2.contains label) with
    | none => exact Or.inr (Or.inr rfl)
    | some p =>
      have hmem : p ∈ PRIORITY_MAP := List.mem_of_find?_eq_some hf
      fin_cases hmem <;> simp
  · intro label h
    unfold get_priority
    have hnone : PRIORITY_MAP.find? (fun p => p.2.contains label) = none := by
      rw [List.find?_eq_none]
      intro x hx hc
      exact h x hx (by simpa using hc)
    rw [hnone]
  · intro label h
    unfold build_query
    rw [h]

/-- Witness for C10: the unknown label Crane discharges both
hypotheses. -/
theorem priority_total_and_generic_witness :
    get_priority "Crane" = "LOW" ∧
    build_query "Crane" = "Crane safety requirement construction site" :=
  ⟨priority_total_and_generic.2.1 "Crane" (by decide),
   priority_total_and_generic.2.2.1 "Crane" (by decide)⟩

/-- C7: a detection enters the query path exactly when its confidence is
at least 0.50 and it is not a LOW-priority non-violation; in particular
Sedan at 0.90 issues no call, NO-Hardhat at 0.90 and at exactly 0.50
each issue one, and NO-Hardhat at 0.49 issues none. -/
theorem retrieval_trigger_guard :
    (∀ (search : SearchFn) (st : RetState) (d : Detection),
        processDetection search st d =
          (if CONFIDENCE_THRESHOLD ≤ d.confidence ∧
              ¬ (get_priority d.label = "LOW" ∧ d.label ∉ VIOLATION_LABELS)
           then queryPath search st d else .ok st)) ∧
    processDetection emptySearch initState (mkDetection "Sedan" 0.9) = .ok initState ∧
    (∃ st : RetState,
        processDetection emptySearch initState (mkDetection "NO-Hardhat" 0.9) = .ok st ∧
        st.searchCalls = [build_query "NO-Hardhat"]) ∧
    (∃ st : RetState,
        processDetection emptySearch initState (mkDetection "NO-Hardhat" 0.5) = .ok st ∧
        st.searchCalls = [build_query "NO-Hardhat"]) ∧
    processDetection emptySearch initState (mkDetection "NO-Hardhat" 0.49) = .ok initState := by
  have hhigh : ¬ (get_priority "NO-Hardhat" = "LOW" ∧ "NO-Hardhat" ∉ VIOLATION_LABELS) := by
    decide
  refine ⟨?_, ?_, ?_, ?_, ?_⟩
  · intro search st d
    unfold processDetection
    by_cases h1 : d.confidence < CONFIDENCE_THRESHOLD
    · rw [if_pos h1, if_neg]
      intro hcon
      exact absurd hcon.1 (not_le.mpr h1)
    · rw [if_neg h1]
      by_cases h2 : get_priority d.label = "LOW" ∧ d.label ∉ VIOLATION_LABELS
      · rw [if_pos h2, if_neg (fun hcon => hcon.2 h2)]
      · rw [if_neg h2, if_pos ⟨not_lt.mp h1, h2⟩]
  · have h1 : ¬ ((0.9 : ℚ) < CONFIDENCE_THRESHOLD) := by norm_num [CONFIDENCE_THRESHOLD]
    have h2 : get_priority "Sedan" = "LOW" ∧ "Sedan" ∉ VIOLATION_LABELS := by decide
    unfold processDetection
    simp only [mkDetection]
    rw [if_neg h1, if_pos h2]
  · refine ⟨{ regulations_dict := [],
              query_cache := [("hard hat head protection requirement construction site", [])],
              searchCalls := ["hard hat head protection requirement construction site"],
              arrived := [] }, ?_, rfl⟩
    have h1 : ¬ ((0.9 : ℚ) < CONFIDENCE_THRESHOLD) := by norm_num [CONFIDENCE_THRESHOLD]
    unfold processDetection
    simp only [mkDetection]
    rw [if_neg h1, if_neg hhigh]
    rfl
  · refine ⟨{ regulations_dict := [],
              query_cache := [("hard hat head protection requirement construction site", [])],
              searchCalls := ["hard hat head protection requirement construction site"],
              arrived := [] }, ?_, rfl⟩
    have h1 : ¬ ((0.5 : ℚ) < CONFIDENCE_THRESHOLD) := by norm_num [CONFIDENCE_THRESHOLD]
    unfold processDetection
    simp only [mkDetection]
    rw [if_neg h1, if_neg hhigh]
    rfl
  · have h1 : (0.49 : ℚ) < CONFIDENCE_THRESHOLD := by norm_num [CONFIDENCE_THRESHOLD]
    unfold processDetection
    simp only [mkDetection]
    rw [if_pos h1]

/-- A non-qualifying detection leaves the loop state untouched. -/
theorem processDetection_skip (search : SearchFn) (st : RetState) (d : Detection)
    (h : qualifies d = false) : processDetection search st d = .ok st := by
  unfold qualifies at h
  unfold processDetection
  split at h
  · rename_i h1
    rw [if_pos h1]
  · rename_i h1
    split at h
    · rename_i h2
      rw [if_neg h1, if_pos h2]
    · exact absurd h (by simp)

/-- A qualifying detection runs the query path. -/
theorem processDetection_query (search : SearchFn) (st : RetState) (d : Detection)
    (h : qualifies d = true) : processDetection search st d = queryPath search st d := by
  unfold qualifies at h
  unfold processDetection
  split at h
  · exact absurd h (by simp)
  · rename_i h1
    split at h
    · exact absurd h (by simp)
    · rename_i h2
      rw [if_neg h1, if_neg h2]

/-- Equation for qualifyingQueries on a qualifying head. -/
theorem qualifyingQueries_cons_true {d : Detection} (ds : List Detection)
    (h : qualifies d = true) :
    qualifyingQueries (d :: ds) = build_query d.label :: qualifyingQueries ds := by
  simp [qualifyingQueries, List.filter_cons, h]

/-- Equation for qualifyingQueries on a skipped head. -/
theorem qualifyingQueries_cons_false {d : Detection} (ds : List Detection)
    (h : qualifies d = false) :
    qualifyingQueries (d :: ds) = qualifyingQueries ds := by
  simp [qualifyingQueries, List.filter_cons, h]

/-- First-occurrence dedup only inspects membership in the seen list. -/
theorem dedupQueries_congr : ∀ (qs seen₁ seen₂ : List String),
    (∀ q, q ∈ seen₁ ↔ q ∈ seen₂) → dedupQueries seen₁ qs = dedupQueries seen₂ qs := by
  intro qs
  induction qs with
  | nil => intro _ _ _; rfl
  | cons q qs ih =>
    intro s1 s2 hiff
    unfold dedupQueries
    by_cases hq : q ∈ s1
    · rw [if_pos hq, if_pos ((hiff q).mp hq)]
      exact ih s1 s2 hiff
    · rw [if_neg hq, if_neg (fun h => hq ((hiff q).mpr h))]
      rw [ih (q :: s1) (q :: s2) (by intro x; simp [hiff x])]

/-- Unfolding equation of dedupQueries on a cons. -/
theorem dedupQueries_cons (seen : List String) (q : String) (qs : List String) :
    dedupQueries seen (q :: qs) =
      if q ∈ seen then dedupQueries seen qs else q :: dedupQueries (q :: seen) qs := rfl

/-- Across the detection loop, the executed backend queries extend by
the first-occurrence dedup of the qualifying queries, relative to the
cache contents at entry. -/
theorem runDetections_searchCalls (search : SearchFn) :
    ∀ (ds : List Detection) (st st' : RetState),
      runDetections search st ds = .ok st' →
      st'.searchCalls = st.searchCalls ++
        dedupQueries (st.query_cache.map Prod.fst) (qualifyingQueries ds) := by
  intro ds
  induction ds with
  | nil =>
    intro st st' h
    cases h
    simp [qualifyingQueries, dedupQueries]
  | cons d ds ih =>
    intro st st' h
    unfold runDetections at h
    cases hq : qualifies d with
    | false =>
      rw [processDetection_skip search st d hq] at h
      rw [qualifyingQueries_cons_false ds hq]
      exact ih st st' h
    | true =>
      rw [processDetection_query search st d hq] at h
      unfold queryPath at h
      rw [qualifyingQueries_cons_true ds hq, dedupQueries_cons]
      cases hc : st.query_cache.lookup (build_query d.label) with
      | some points =>
        simp only [hc] at h
        have hqmem : build_query d.label ∈ st.query_cache.map Prod.fst := by
          have hsome : (st.query_cache.lookup (build_query d.label)).isSome := by
            rw [hc]; rfl
          rcases List.lookup_isSome_iff.mp hsome with ⟨p, hp, hbeq⟩
          exact List.mem_map.mpr ⟨p, hp, (eq_of_beq hbeq).symm⟩
        rw [if_pos hqmem]
        have hrec := ih (absorbPoints st points) st' h
        simpa [absorbPoints] using hrec
      | none =>
        have hqnotmem : build_query d.label ∉ st.query_cache.map Prod.fst := by
          rw [List.lookup_eq_none_iff] at hc
          intro hmem
          rcases List.mem_map.mp hmem with ⟨p, hp, hfst⟩
          have hb := hc p hp
          rw [← hfst] at hb
          simp at hb
        rw [if_neg hqnotmem]
        cases hs : search (build_query d.label)
            ((RETRIEVAL_LIMITS.lookup (get_priority d.label)).getD 1) with
        | error e =>
          simp only [hc, hs] at h
          exact Except.noConfusion h
        | ok points =>
          simp only [hc, hs] at h
          have hrec := ih _ st' h
          simp only [absorbPoints, List.map_append, List.map_cons, List.map_nil] at hrec
          rw [dedupQueries_congr (qualifyingQueries ds)
              (st.query_cache.map Prod.fst ++ [build_query d.label])
              (build_query d.label :: st.query_cache.map Prod.fst)
              (by intro x; simp [or_comm])] at hrec
          rw [hrec]
          simp

/-- Unfolding equation of the detection loop on a cons. -/
theorem runDetections_cons (search : SearchFn) (st : RetState) (d : Detection)
    (ds : List Detection) :
    runDetections search st (d :: ds) =
      match processDetection search st d with
      | .error e => .error e
      | .ok st₁ => runDetections search st₁ ds := rfl

/-- Unfolding equation of the detection loop on nil. -/
theorem runDetections_nil (search : SearchFn) (st : RetState) :
    runDetections search st [] = .ok st := rfl

/-- C8: in one retrieval run the executed backend queries are exactly
the first-occurrence dedup of the qualifying detections' query strings,
so the number of search calls equals the number of distinct query
strings; repeated query texts are served from the per-run cache. -/
theorem distinct_query_search_calls (search : SearchFn) (context : List Detection)
    (st : RetState) (h : retrieveState search context = .ok st) :
    st.searchCalls = dedupQueries [] (qualifyingQueries context) ∧
    st.searchCalls.length = (dedupQueries [] (qualifyingQueries context)).length := by
  have hrun := runDetections_searchCalls search context initState st h
  simp only [initState, List.map_nil, List.nil_append] at hrun
  exact ⟨hrun, by rw [hrun]⟩

/-- Final loop state of the run used as the cache witness: two
NO-Hardhat detections, one executed query. -/
def cachedRunState : RetState :=
  { regulations_dict := [],
    query_cache := [("hard hat head protection requirement construction site", [])],
    searchCalls := ["hard hat head protection requirement construction site"],
    arrived := [] }

/-- Witness for C8: two detections with the same query text cause
exactly one backend call. -/
theorem distinct_query_search_calls_witness :
    retrieveState emptySearch
        [mkDetection "NO-Hardhat" 0.9, mkDetection "NO-Hardhat" 0.8] = .ok cachedRunState ∧
    cachedRunState.searchCalls =
      dedupQueries []
        (qualifyingQueries [mkDetection "NO-Hardhat" 0.9, mkDetection "NO-Hardhat" 0.8]) := by
  have hhigh : ¬ (get_priority "NO-Hardhat" = "LOW" ∧ "NO-Hardhat" ∉ VIOLATION_LABELS) := by
    decide
  have p1 : processDetection emptySearch initState (mkDetection "NO-Hardhat" 0.9) =
      .ok cachedRunState := by
    have h1 : ¬ ((0.9 : ℚ) < CONFIDENCE_THRESHOLD) := by norm_num [CONFIDENCE_THRESHOLD]
    unfold processDetection
    simp only [mkDetection]
    rw [if_neg h1, if_neg hhigh]
    rfl
  have p2 : processDetection emptySearch cachedRunState (mkDetection "NO-Hardhat" 0.8) =
      .ok cachedRunState := by
    have h1 : ¬ ((0.8 : ℚ) < CONFIDENCE_THRESHOLD) := by norm_num [CONFIDENCE_THRESHOLD]
    unfold processDetection
    simp only [mkDetection]
    rw [if_neg h1, if_neg hhigh]
    rfl
  have hstate : retrieveState emptySearch
      [mkDetection "NO-Hardhat" 0.9, mkDetection "NO-Hardhat" 0.8] = .ok cachedRunState := by
    unfold retrieveState
    simp only [runDetections_cons, runDetections_nil, p1, p2]
  exact ⟨hstate, (distinct_query_search_calls emptySearch _ _ hstate).1⟩

/-- Every entry of the dedup dict is stored under the dedup key of its
own regulation text. -/
def dictKeyed (dict : List (String × Regulation)) : Prop :=
  ∀ e ∈ dict, e.1 = textKey e.2.text

/-- insertPoint preserves the key/text relation. -/
theorem insertPoint_keyed {dict : List (String × Regulation)} (p : Point)
    (h : dictKeyed dict) : dictKeyed (insertPoint dict p) := by
  unfold insertPoint
  split
  · exact h
  · intro e he
    rcases List.mem_append.mp he with h1 | h2
    · exact h e h1
    · have : e = (textKey p.textOf, regulationOfPoint p) := by simpa using h2
      subst this
      rfl

/-- insertPoint preserves distinctness of the stored keys. -/
theorem insertPoint_nodup_keys {dict : List (String × Regulation)} (p : Point)
    (h : (dict.map Prod.fst).Nodup) : ((insertPoint dict p).map Prod.fst).Nodup := by
  unfold insertPoint
  split
  · exact h
  · rename_i hnone
    rw [List.map_append]
    rw [List.nodup_append]
    refine ⟨h, List.nodup_singleton _, ?_⟩
    intro x hx hx1
    have hxeq : x = textKey p.textOf := by simpa using hx1
    subst hxeq
    rcases List.mem_map.mp hx with ⟨e, he, hfst⟩
    rw [Option.not_isSome_iff_eq_none, List.lookup_eq_none_iff] at hnone
    have := hnone e he
    rw [← hfst] at this
    simp at this

/-- Folding insertPoint preserves the key/text relation. -/
theorem foldl_insert_keyed : ∀ (points : List Point) (dict : List (String × Regulation)),
    dictKeyed dict → dictKeyed (points.foldl insertPoint dict) := by
  intro points
  induction points with
  | nil => intro dict h; exact h
  | cons p pts ih =>
    intro dict h
    rw [List.foldl_cons]
    exact ih (insertPoint dict p) (insertPoint_keyed p h)

/-- Folding insertPoint preserves distinctness of the stored keys. -/
theorem foldl_insert_nodup : ∀ (points : List Point) (dict : List (String × Regulation)),
    (dict.map Prod.fst).Nodup → ((points.foldl insertPoint dict).map Prod.fst).Nodup := by
  intro points
  induction points with
  | nil => intro dict h; exact h
  | cons p pts ih =>
    intro dict h
    rw [List.foldl_cons]
    exact ih (insertPoint dict p) (insertPoint_nodup_keys p h)

/-- Looking a key up after folding insertPoint over a point list finds
the entry already present, or else the first point of the list whose
text has that dedup key. -/
theorem lookup_foldl_insert : ∀ (points : List Point) (dict : List (String × Regulation))
    (k : String),
    (points.foldl insertPoint dict).lookup k =
      (dict.lookup k).or
        ((points.find? (fun p => textKey p.textOf == k)).map regulationOfPoint) := by
  intro points
  induction points with
  | nil =>
    intro dict k
    simp
  | cons p pts ih =>
    intro dict k
    rw [List.foldl_cons, ih, List.find?_cons]
    cases hk : (textKey p.textOf == k) with
    | false =>
      simp only []
      unfold insertPoint
      split
      · rfl
      · rw [List.lookup_append]
        have hsingle : ([(textKey p.textOf, regulationOfPoint p)] : List (String × Regulation)).lookup k = none := by
          rw [List.lookup_eq_none_iff]
          intro q hq
          have : q = (textKey p.textOf, regulationOfPoint p) := by simpa using hq
          subst this
          simp only [bne_iff_ne, ne_eq]
          intro hkk
          rw [hkk] at hk
          simp at hk
        rw [hsingle, Option.or_none]
    | true =>
      have hkeq : textKey p.textOf = k := eq_of_beq hk
      simp only []
      unfold insertPoint
      split
      · rename_i hsome
        rw [hkeq] at hsome
        rw [Option.or_of_isSome hsome, Option.or_of_isSome hsome]
      · rename_i hnone
        rw [Option.not_isSome_iff_eq_none, hkeq] at hnone
        rw [List.lookup_append, hnone, Option.none_or, Option.none_or]
        have : ([(textKey p.textOf, regulationOfPoint p)] : List (String × Regulation)).lookup k =
            some (regulationOfPoint p) := by
          rw [← hkeq]
          simp
        rw [this]
        rfl

/-- Across the detection loop, the dedup dict is exactly the
insert-if-absent fold over the points in order of arrival. -/
theorem runDetections_dict_arrived (search : SearchFn) :
    ∀ (ds : List Detection) (st st' : RetState),
      runDetections search st ds = .ok st' →
      st.regulations_dict = st.arrived.foldl insertPoint [] →
      st'.regulations_dict = st'.arrived.foldl insertPoint [] := by
  intro ds
  induction ds with
  | nil =>
    intro st st' h hinv
    cases h
    exact hinv
  | cons d ds ih =>
    intro st st' h hinv
    unfold runDetections at h
    cases hq : qualifies d with
    | false =>
      rw [processDetection_skip search st d hq] at h
      exact ih st st' h hinv
    | true =>
      rw [processDetection_query search st d hq] at h
      unfold queryPath at h
      cases hc : st.query_cache.lookup (build_query d.label) with
      | some points =>
        simp only [hc] at h
        refine ih _ st' h ?_
        show points.foldl insertPoint st.regulations_dict =
          (st.arrived ++ points).foldl insertPoint []
        rw [List.foldl_append, ← hinv]
      | none =>
        cases hs : search (build_query d.label)
            ((RETRIEVAL_LIMITS.lookup (get_priority d.label)).getD 1) with
        | error e =>
          simp only [hc, hs] at h
          exact Except.noConfusion h
        | ok points =>
          simp only [hc, hs] at h
          refine ih _ st' h ?_
          show points.foldl insertPoint st.regulations_dict =
            (st.arrived ++ points).foldl insertPoint []
          rw [List.foldl_append, ← hinv]

/-- C4: in any successful retrieval run the output regulations have
pairwise distinct dedup keys (the 200-character text prefixes), and the
entry stored under any key is built from the first point, in arrival
order, whose text has that prefix; later arrivals with the same prefix
are dropped. -/
theorem retrieval_dedup_first_kept (search : SearchFn) (context : List Detection)
    (st : RetState) (h : retrieveState search context = .ok st) :
    ((st.regulations_dict.map Prod.snd).map (fun r => textKey r.text)).Nodup ∧
    ∀ k : String, st.regulations_dict.lookup k =
      (st.arrived.find? (fun p => textKey p.textOf == k)).map regulationOfPoint := by
  have hfold : st.regulations_dict = st.arrived.foldl insertPoint [] :=
    runDetections_dict_arrived search context initState st h rfl
  constructor
  · have hkeyed : dictKeyed st.regulations_dict := by
      rw [hfold]
      exact foldl_insert_keyed st.arrived [] (by intro e he; cases he)
    have hnodup : (st.regulations_dict.map Prod.fst).Nodup := by
      rw [hfold]
      exact foldl_insert_nodup st.arrived [] (by simp)
    have hmaps : (st.regulations_dict.map Prod.snd).map (fun r => textKey r.text) =
        st.regulations_dict.map Prod.fst := by
      rw [List.map_map]
      apply List.map_congr_left
      intro e he
      exact (hkeyed e he).symm
    rw [hmaps]
    exact hnodup
  · intro k
    rw [hfold, lookup_foldl_insert]
    simp

set_option allowUnsafeReducibility true in
attribute [semireducible] textKey

/-- A search hit whose first 200 text characters match ptSecond. -/
def ptFirst : Point :=
  { payload := some { text := some "Wear hard hats", source := some "S1" } }

/-- A later search hit with the same text prefix but another source. -/
def ptSecond : Point :=
  { payload := some { text := some "Wear hard hats", source := some "S2" } }

/-- A search backend returning the two same-prefix hits for every
query. -/
def dupSearch : SearchFn := fun _ _ => .ok [ptFirst, ptSecond]

/-- Final loop state of the dedup witness run: the second hit is
dropped, the first is kept. -/
def dedupRunState : RetState :=
  { regulations_dict :=
      [("Wear hard hats",
        { citation := "S1", text := "Wear hard hats", source := "CAL_OSHA" })],
    query_cache :=
      [("hard hat head protection requirement construction site", [ptFirst, ptSecond])],
    searchCalls := ["hard hat head protection requirement construction site"],
    arrived := [ptFirst, ptSecond] }

/-- Witness for C4: two passages with an identical text prefix yield a
single Regulation, built from the first arrival. -/
theorem retrieval_dedup_first_kept_witness :
    retrieveState dupSearch [mkDetection "NO-Hardhat" 0.9] = .ok dedupRunState ∧
    ((dedupRunState.regulations_dict.map Prod.snd).map (fun r => textKey r.text)).Nodup ∧
    dedupRunState.regulations_dict.lookup (textKey "Wear hard hats") =
      (dedupRunState.arrived.find? (fun p => textKey p.textOf == textKey "Wear hard hats")).map
        regulationOfPoint := by
  have h1 : ¬ ((0.9 : ℚ) < CONFIDENCE_THRESHOLD) := by norm_num [CONFIDENCE_THRESHOLD]
  have hhigh : ¬ (get_priority "NO-Hardhat" = "LOW" ∧ "NO-Hardhat" ∉ VIOLATION_LABELS) := by
    decide
  have p1 : processDetection dupSearch initState (mkDetection "NO-Hardhat" 0.9) =
      .ok dedupRunState := by
    unfold processDetection
    simp only [mkDetection]
    rw [if_neg h1, if_neg hhigh]
    rfl
  have hstate : retrieveState dupSearch [mkDetection "NO-Hardhat" 0.9] = .ok dedupRunState := by
    unfold retrieveState
    simp only [runDetections_cons, runDetections_nil, p1]
  exact ⟨hstate, (retrieval_dedup_first_kept dupSearch _ _ hstate).1,
         (retrieval_dedup_first_kept dupSearch _ _ hstate).2 (textKey "Wear hard hats")⟩
